import Mathlib

/-
Verification development for the crypto_arb_bot repository.

Shallow embedding of the execution core:
* `TradeStatePersistence` (src/unnamed/part_007, class starting at line 227):
  the trade ledger with its JSON state document and file events.
* `ExchangeManager.executeTrade` (src/src/exchanges/ExchangeManager.ts,
  second class in the file, lines 1017-1156) together with
  `fetchOrder` (1161-1188) and `findRecentOrderByParams` (1194-1248).
* `SimpleArbitrage` (src/unnamed/part_006): `tryAcquireTradeLock` (253-271)
  and `executeTrade` (643-899).

Conventions of the embedding:
* JavaScript numbers are modelled as rationals, epoch-millisecond timestamps
  as integers.
* Asynchronous venue calls and clock reads are oracles supplied through an
  environment record; each embedded operation returns its result, the new
  state, and the list of observable effects (an event trace) in program order.
* JavaScript `x || d` on numbers treats both `undefined` and `0` as falsy;
  `jsOrQ`/`jsOrZ`/`jsOrStr` reproduce that.
-/

namespace CryptoArb

/-- Order side, the TS union `'buy' | 'sell'`. -/
inductive Side
  | buy
  | sell
deriving DecidableEq

/-- The fields of `ArbitrageOpportunity` (part_007 lines 41-59) that the
execution core reads. -/
structure Opportunity where
  symbol : String
  buyExchange : String
  sellExchange : String
  amount : ℚ
  profitPercent : ℚ
  profitAmount : ℚ
deriving DecidableEq

/-- The `TradeResult` interface (part_007 lines 74-87). -/
structure TradeResult where
  orderId : String
  exchange : String
  symbol : String
  side : Side
  amount : ℚ
  filled : ℚ
  price : ℚ
  cost : ℚ
  fee : ℚ
  timestamp : ℤ
  success : Bool
  error : Option String
deriving DecidableEq

/-- Lookup in an association list keyed by strings; models `Map.get` /
JS `Record` indexing (keys are unique in every state we build). -/
def lookupKey {β : Type} : List (String × β) → String → Option β
  | [], _ => none
  | p :: rest, k => if p.1 = k then some p.2 else lookupKey rest k

/-- Insert-or-replace; models `Map.set` / `record[k] = v`. -/
def setKey {β : Type} : List (String × β) → String → β → List (String × β)
  | [], k, v => [(k, v)]
  | p :: rest, k, v => if p.1 = k then (k, v) :: rest else p :: setKey rest k v

/-- Remove a binding; models `Map.delete` / `delete record[k]`. -/
def eraseKey {β : Type} : List (String × β) → String → List (String × β)
  | [], _ => []
  | p :: rest, k => if p.1 = k then rest else p :: eraseKey rest k

/-- JS `x || d` for an optional number: `undefined` and `0` are falsy. -/
def jsOrQ (x : Option ℚ) (d : ℚ) : ℚ :=
  match x with
  | some v => if v = 0 then d else v
  | none => d

/-- JS `x || d` for an optional integer timestamp. -/
def jsOrZ (x : Option ℤ) (d : ℤ) : ℤ :=
  match x with
  | some v => if v = 0 then d else v
  | none => d

/-- JS `x || d` for an optional string: `undefined` and `""` are falsy. -/
def jsOrStr (x : Option String) (d : String) : String :=
  match x with
  | some v => if v = "" then d else v
  | none => d

/-- Status union of `PersistedTrade` (part_007 line 204). -/
inductive TradeStatus
  | pending
  | buyExecuted
  | completed
  | failed
deriving DecidableEq

/-- The `PersistedTrade` interface (part_007 lines 201-209). -/
structure PersistedTrade where
  tradeKey : String
  opportunity : Opportunity
  status : TradeStatus
  buyResult : Option TradeResult
  sellResult : Option TradeResult
  startedAt : ℤ
  updatedAt : ℤ
deriving DecidableEq

/-- The `PersistedState` file structure (part_007 lines 214-218); the
`activeTrades` record is an association list with unique keys. -/
structure PersistedState where
  version : ℕ
  lastUpdated : ℤ
  activeTrades : List (String × PersistedTrade)
deriving DecidableEq

/-- Observable effects of the persistence layer: file-system operations and
warning logs.  `writeFile` carries the whole serialized document (the source
writes `JSON.stringify(this.state)`). -/
inductive PersistEvent
  | writeFile (path : String) (doc : PersistedState)
  | renameFile (src : String) (dst : String)
  | fsyncFile (path : String)
  | logWarn (msg : String)
deriving DecidableEq

/-- `ORPHAN_THRESHOLD_MS = 24 * 60 * 60 * 1000` (part_007 line 222). -/
def ORPHAN_THRESHOLD_MS : ℤ := 24 * 60 * 60 * 1000

/-- `DEFAULT_STATE_FILE` (part_007 line 221). -/
def DEFAULT_STATE_FILE : String := "data/trade-state.json"

namespace TradeStatePersistence

/-- `forceSave` (part_007 lines 308-323): sets `lastUpdated` and writes the
whole JSON document directly to the state file with `fs.promises.writeFile`.
The source performs no temp-file rename and no fsync; the write is awaited
before the function returns. -/
def forceSave (path : String) (now : ℤ) (st : PersistedState) :
    PersistedState × List PersistEvent :=
  let st1 := { st with lastUpdated := now }
  (st1, [PersistEvent.writeFile path st1])

/-- `generateTradeKey` (part_007 lines 328-334). -/
def generateTradeKey (symbol buyExchange sellExchange : String) : String :=
  symbol ++ "-" ++ buyExchange ++ "-" ++ sellExchange

/-- `recordTradeStart` (part_007 lines 339-365): inserts a `pending` entry and
awaits `forceSave` before returning the trade key. -/
def recordTradeStart (path : String) (now : ℤ) (st : PersistedState)
    (opportunity : Opportunity) : String × PersistedState × List PersistEvent :=
  let tradeKey := generateTradeKey opportunity.symbol opportunity.buyExchange
    opportunity.sellExchange
  let trade : PersistedTrade :=
    { tradeKey := tradeKey
      opportunity := opportunity
      status := TradeStatus.pending
      buyResult := none
      sellResult := none
      startedAt := now
      updatedAt := now }
  let st1 := { st with activeTrades := setKey st.activeTrades tradeKey trade }
  let saved := forceSave path now st1
  (tradeKey, saved.1, saved.2)

/-- `recordBuyExecuted` (part_007 lines 370-388): on a missing key it logs a
warning and returns; otherwise it updates the entry and awaits `forceSave`. -/
def recordBuyExecuted (path : String) (now : ℤ) (st : PersistedState)
    (tradeKey : String) (buyResult : TradeResult) :
    PersistedState × List PersistEvent :=
  match lookupKey st.activeTrades tradeKey with
  | none => (st, [PersistEvent.logWarn ("Attempted to update non-existent trade")])
  | some trade =>
    let trade1 := { trade with
                    status := TradeStatus.buyExecuted
                    buyResult := some buyResult
                    updatedAt := now }
    let st1 := { st with activeTrades := setKey st.activeTrades tradeKey trade1 }
    forceSave path now st1

/-- `recordTradeComplete` (part_007 lines 393-419): on a missing key it logs a
warning and returns; otherwise it deletes the entry (the in-place status and
`sellResult` mutations precede the delete, so they do not survive in the
state) and awaits `forceSave`. -/
def recordTradeComplete (path : String) (now : ℤ) (st : PersistedState)
    (tradeKey : String) (success : Bool) (sellResult : Option TradeResult) :
    PersistedState × List PersistEvent :=
  match lookupKey st.activeTrades tradeKey with
  | none => (st, [PersistEvent.logWarn ("Attempted to complete non-existent trade")])
  | some _ =>
    let st1 := { st with activeTrades := eraseKey st.activeTrades tradeKey }
    forceSave path now st1

/-- `detectOrphanedTrades` (part_007 lines 452-464): the active trades whose
age `now - startedAt` strictly exceeds the threshold. -/
def detectOrphanedTrades (now : ℤ) (thresholdMs : ℤ) (st : PersistedState) :
    List PersistedTrade :=
  (st.activeTrades.map Prod.snd).filter (fun t => decide (now - t.startedAt > thresholdMs))

/-- `recoverState` (part_007 lines 469-517): partitions the active trades into
recovered and orphaned (using the default 24 h threshold), logs an operator
warning for each orphan, and leaves the state untouched. -/
def recoverState (now : ℤ) (st : PersistedState) :
    (List PersistedTrade × List PersistedTrade) × PersistedState × List PersistEvent :=
  let allTrades := st.activeTrades.map Prod.snd
  let orphanedTrades := detectOrphanedTrades now ORPHAN_THRESHOLD_MS st
  let recoveredTrades := allTrades.filter (fun t => decide (t ∉ orphanedTrades))
  ((recoveredTrades, orphanedTrades), st,
   orphanedTrades.map (fun t =>
     PersistEvent.logWarn ("ORPHANED TRADE DETECTED - Manual intervention may be required: " ++ t.tradeKey)))

/-- `acknowledgeOrphanedTrade` (part_007 lines 522-536): on a missing key it
logs a warning and returns; otherwise it deletes the entry and awaits
`forceSave`. -/
def acknowledgeOrphanedTrade (path : String) (now : ℤ) (st : PersistedState)
    (tradeKey : String) : PersistedState × List PersistEvent :=
  match lookupKey st.activeTrades tradeKey with
  | none => (st, [PersistEvent.logWarn ("Attempted to acknowledge non-existent trade")])
  | some _ =>
    let st1 := { st with activeTrades := eraseKey st.activeTrades tradeKey }
    forceSave path now st1

end TradeStatePersistence

/-- A `TradeOrder` (part_007 lines 61-69) as consumed by
`ExchangeManager.executeTrade`; `clientOrderIdParam` models
`order.params?.clientOrderId`.  The `type` field (always `'market'` on the
execution path) is passed through to the venue and not modelled. -/
structure TradeOrder where
  exchange : String
  symbol : String
  side : Side
  amount : ℚ
  price : Option ℚ
  clientOrderIdParam : Option String
deriving DecidableEq

/-- A ccxt order object as returned by `createOrder`; optional fields model
`undefined`. -/
structure VenueCreated where
  id : String
  filled : Option ℚ
  average : Option ℚ
  cost : Option ℚ
  feeCost : Option ℚ
  timestamp : Option ℤ
deriving DecidableEq

/-- A ccxt order object as returned by `fetchOrder` / `fetchOrders`. -/
structure VenueOrder where
  id : String
  side : Side
  amount : Option ℚ
  filled : Option ℚ
  price : Option ℚ
  average : Option ℚ
  cost : Option ℚ
  feeCost : Option ℚ
  timestamp : Option ℤ
  status : String
deriving DecidableEq

/-- An entry of the `recentOrders` map (ExchangeManager.ts line 592). -/
structure RecentOrderInfo where
  orderId : String
  timestamp : ℤ
  exchange : String
deriving DecidableEq

/-- The `ExchangeManager` state visible to `executeTrade`: the registered
exchanges (mapped to their `capabilities.createOrder` bit) and the
`recentOrders` idempotency map. -/
structure EMState where
  exchanges : List (String × Bool)
  recentOrders : List (String × RecentOrderInfo)
deriving DecidableEq

/-- Oracle for one `executeTrade` invocation: clock readings and the venue's
responses.  `nowStart` is the `Date.now()` reading before the `createOrder`
call, `nowCatch` the reading inside the catch path; `fetchOrderResp = none`
covers both a thrown `fetchOrder` and a `null` result (the private
`fetchOrder` catches internally and returns `null`), and
`fetchOrdersResp = none` models a thrown `fetchOrders`. -/
structure EMEnv where
  nowStart : ℤ
  nowCatch : ℤ
  freshClientOrderId : String
  createOrderResult : Except String VenueCreated
  fetchOrderResp : Option VenueOrder
  fetchOrdersResp : Option (List VenueOrder)

/-- Observable effects of `ExchangeManager.executeTrade`.  The two
rate-limiter constructors give vocabulary for the spec claim about token
acquisition and `recordRateLimitError`; the embedded code never emits them
because the source method contains no rate-limiter call. -/
inductive EMEvent
  | createOrder (exchange : String) (symbol : String) (side : Side)
      (amount : ℚ) (clientOrderId : String)
  | fetchOrder (exchange : String) (orderId : String)
  | sleepMs (ms : ℕ)
  | fetchOrders (symbol : String) (lim : ℕ)
  | handleExchangeError (exchange : String) (context : String)
  | rateLimitAcquire (exchange : String)
  | rateLimitOnThrottled (exchange : String)
deriving DecidableEq

/-- Character-list version of `String.startsWith` for the pattern. -/
def startsWithChars : List Char → List Char → Bool
  | [], _ => true
  | _ :: _, [] => false
  | c :: cs, d :: ds => (c == d) && startsWithChars cs ds

/-- Character-list substring containment, `text.includes(pat)`. -/
def containsChars : List Char → List Char → Bool
  | [], pat => pat.isEmpty
  | c :: rest, pat => startsWithChars pat (c :: rest) || containsChars rest pat

/-- JS `msg.toLowerCase().includes(pat)` for a lowercase pattern. -/
def containsToken (msg : String) (pat : String) : Bool :=
  containsChars (msg.data.map Char.toLower) pat.data

/-- The timeout pattern test of `executeTrade` (ExchangeManager.ts lines
1103-1106). -/
def isTimeoutMessage (msg : String) : Bool :=
  containsToken msg ("timeout") || containsToken msg ("timedout") ||
    containsToken msg ("etimedout")

/-- `WebSocketRateLimiter.isRateLimitError` (ExchangeManager.ts lines
1962-1970): the throttling pattern. -/
def isRateLimitMessage (msg : String) : Bool :=
  containsToken msg ("429") || containsToken msg ("rate limit") ||
    containsToken msg ("too many requests") || containsToken msg ("request rate") ||
    containsToken msg ("exceeded") || containsToken msg ("throttl")

namespace ExchangeManager

/-- `recentOrderTTL = 60000` (ExchangeManager.ts line 593). -/
def recentOrderTTL : ℤ := 60000

/-- `cleanupRecentOrders` (ExchangeManager.ts lines 1253-1260): drop entries
older than the TTL. -/
def cleanupRecentOrders (now : ℤ) (st : EMState) : EMState :=
  { st with recentOrders :=
      st.recentOrders.filter (fun p => !(decide (now - p.2.timestamp > recentOrderTTL))) }

/-- Hydration done by the private `fetchOrder` (ExchangeManager.ts lines
1170-1182). -/
def hydrateFetchedOrder (exchangeId symbol : String) (now : ℤ) (o : VenueOrder) :
    TradeResult :=
  { orderId := o.id
    exchange := exchangeId
    symbol := symbol
    side := o.side
    amount := jsOrQ o.amount 0
    filled := jsOrQ o.filled 0
    price := jsOrQ o.average (jsOrQ o.price 0)
    cost := jsOrQ o.cost 0
    fee := jsOrQ o.feeCost 0
    timestamp := jsOrZ o.timestamp now
    success := o.status == "closed" || o.status == "open" ||
      (match o.filled with | some f => decide (f > 0) | none => false)
    error := none }

/-- The per-order match test inside `findRecentOrderByParams`
(ExchangeManager.ts lines 1210-1219): the order must be created within the
last 30 s, have the requested side, and an amount within 1 % of the request.
When `amount = 0` the source divides by zero, producing NaN or Infinity, and
the `< 0.01` comparison is false; the guard reproduces that. -/
def matchesRecentOrder (now : ℤ) (side : Side) (amount : ℚ) (o : VenueOrder) :
    Bool :=
  let orderTimestamp := jsOrZ o.timestamp 0
  if orderTimestamp < now - 30000 then false
  else if o.side = side then
    if amount = 0 then false
    else decide (|jsOrQ o.amount 0 - amount| / amount < 1 / 100)
  else false

/-- Hydration of a matched recent order (ExchangeManager.ts lines 1227-1239);
note the requested `side` and the fallback of `amount` to the requested
amount, both unlike the private `fetchOrder` hydration. -/
def hydrateRecentOrder (exchangeId symbol : String) (side : Side) (amount : ℚ)
    (now : ℤ) (o : VenueOrder) : TradeResult :=
  { orderId := o.id
    exchange := exchangeId
    symbol := symbol
    side := side
    amount := jsOrQ o.amount amount
    filled := jsOrQ o.filled 0
    price := jsOrQ o.average (jsOrQ o.price 0)
    cost := jsOrQ o.cost 0
    fee := jsOrQ o.feeCost 0
    timestamp := jsOrZ o.timestamp now
    success := o.status == "closed" || o.status == "open" ||
      (match o.filled with | some f => decide (f > 0) | none => false)
    error := none }

/-- `findRecentOrderByParams` (ExchangeManager.ts lines 1194-1248): fetch the
last 10 orders for the symbol and return the first one matching
`matchesRecentOrder`; `none` on a missing exchange, a thrown fetch, or no
match. -/
def findRecentOrderByParams (st : EMState) (env : EMEnv)
    (exchangeId symbol : String) (side : Side) (amount : ℚ) :
    Option TradeResult × List EMEvent :=
  match lookupKey st.exchanges exchangeId with
  | none => (none, [])
  | some _ =>
    match env.fetchOrdersResp with
    | none => (none, [EMEvent.fetchOrders symbol 10])
    | some orders =>
      match orders.find? (fun o => matchesRecentOrder env.nowCatch side amount o) with
      | some o =>
        (some (hydrateRecentOrder exchangeId symbol side amount env.nowCatch o),
         [EMEvent.fetchOrders symbol 10])
      | none => (none, [EMEvent.fetchOrders symbol 10])

/-- The failure `TradeResult` built in the catch block of `executeTrade`
(ExchangeManager.ts lines 1136-1149). -/
def failureResult (order : TradeOrder) (msg : String) (now : ℤ) : TradeResult :=
  { orderId := ""
    exchange := order.exchange
    symbol := order.symbol
    side := order.side
    amount := order.amount
    filled := 0
    price := jsOrQ order.price 0
    cost := 0
    fee := 0
    timestamp := now
    success := false
    error := some msg }

/-- The success `TradeResult` built after `createOrder` returns
(ExchangeManager.ts lines 1077-1089). -/
def successResult (order : TradeOrder) (now : ℤ) (res : VenueCreated) :
    TradeResult :=
  { orderId := res.id
    exchange := order.exchange
    symbol := order.symbol
    side := order.side
    amount := jsOrQ res.filled order.amount
    filled := jsOrQ res.filled order.amount
    price := jsOrQ res.average (jsOrQ order.price 0)
    cost := jsOrQ res.cost 0
    fee := jsOrQ res.feeCost 0
    timestamp := jsOrZ res.timestamp now
    success := true
    error := none }

/-- The idempotency short-circuit of `executeTrade` (ExchangeManager.ts lines
1034-1051): when `recentOrders` holds the `clientOrderId` the existing order
is fetched; a non-null result is returned, and a null or thrown fetch falls
through to the submission path. -/
def shortCircuitCheck (st1 : EMState) (env : EMEnv) (order : TradeOrder)
    (clientOrderId : String) : Option TradeResult × List EMEvent :=
  match lookupKey st1.recentOrders clientOrderId with
  | none => (none, [])
  | some info =>
    match env.fetchOrderResp with
    | none => (none, [EMEvent.fetchOrder order.exchange info.orderId])
    | some o =>
      (some (hydrateFetchedOrder order.exchange order.symbol env.nowStart o),
       [EMEvent.fetchOrder order.exchange info.orderId])

/-- The try/catch submission path of `executeTrade` (ExchangeManager.ts lines
1053-1155): one `createOrder` attempt; on success the order is recorded in
`recentOrders`; on a timeout-pattern exception sleep 2 s and scan the recent
orders, returning a found order (recorded in `recentOrders`) or the failure
result; on any other exception return the failure result after
`handleExchangeError`. -/
def submitPath (st1 : EMState) (env : EMEnv) (order : TradeOrder)
    (clientOrderId : String) : TradeResult × EMState × List EMEvent :=
  let createEv := EMEvent.createOrder order.exchange order.symbol order.side
    order.amount clientOrderId
  match env.createOrderResult with
  | Except.ok res =>
    let info : RecentOrderInfo :=
      { orderId := res.id, timestamp := env.nowStart, exchange := order.exchange }
    let st2 := { st1 with recentOrders := setKey st1.recentOrders clientOrderId info }
    (successResult order env.nowStart res, st2, [createEv])
  | Except.error msg =>
    if isTimeoutMessage msg then
      let found := findRecentOrderByParams st1 env order.exchange order.symbol
        order.side order.amount
      match found.1 with
      | some existing =>
        let info : RecentOrderInfo :=
          { orderId := existing.orderId, timestamp := env.nowCatch
            exchange := order.exchange }
        let st2 := { st1 with recentOrders := setKey st1.recentOrders clientOrderId info }
        (existing, st2, [createEv, EMEvent.sleepMs 2000] ++ found.2)
      | none =>
        (failureResult order msg env.nowCatch, st1,
         [createEv, EMEvent.sleepMs 2000] ++ found.2 ++
           [EMEvent.handleExchangeError order.exchange ("executeTrade")])
    else
      (failureResult order msg env.nowCatch, st1,
       [createEv, EMEvent.handleExchangeError order.exchange ("executeTrade")])

/-- `executeTrade` (ExchangeManager.ts lines 1017-1156): throws on a missing
exchange or a missing `createOrder` capability; otherwise cleans up the
`recentOrders` TTL, tries the idempotency short-circuit, and falls through to
the single submission attempt. -/
def executeTrade (st : EMState) (env : EMEnv) (order : TradeOrder) :
    Except String TradeResult × EMState × List EMEvent :=
  match lookupKey st.exchanges order.exchange with
  | none => (Except.error ("Exchange " ++ order.exchange ++ " not found"), st, [])
  | some hasCreateOrder =>
    if hasCreateOrder = false then
      (Except.error ("Exchange " ++ order.exchange ++ " does not support order creation"),
       st, [])
    else
      let clientOrderId := jsOrStr order.clientOrderIdParam env.freshClientOrderId
      let st1 := cleanupRecentOrders env.nowStart st
      match shortCircuitCheck st1 env order clientOrderId with
      | (some r, evs0) => (Except.ok r, st1, evs0)
      | (none, evs0) =>
        let submitted := submitPath st1 env order clientOrderId
        (Except.ok submitted.1, submitted.2.1, evs0 ++ submitted.2.2)

end ExchangeManager

namespace SimpleArbitrage

/-- The values returned by `verifyBalanceBeforeExecution` (part_006, used at
lines 664-699) that `executeTrade` reads. -/
structure BalanceInfo where
  quoteCurrency : String
  baseCurrency : String
  requiredQuote : ℚ
  requiredBase : ℚ
deriving DecidableEq

/-- An order as submitted by the strategy (part_006 lines 717-733): market
order with a minted `clientOrderId`. -/
structure StratOrder where
  exchange : String
  symbol : String
  side : Side
  amount : ℚ
  clientOrderId : String
deriving DecidableEq

/-- Observable effects of `SimpleArbitrage.executeTrade`.  `submitBuy` and
`submitSell` are the two `exchangeManager.executeTrade` calls (wrapped in
`withTimeout`); the reservation and cleanup effects come from lines 687-699
and the finally block at lines 888-898. -/
inductive StratEvent
  | reserveBalance (tradeKey : String) (exchange : String) (currency : String)
      (amount : ℚ)
  | submitBuy (order : StratOrder)
  | submitSell (order : StratOrder)
  | releaseReservation (tradeKey : String)
  | removeActiveTrade (tradeKey : String)
deriving DecidableEq

/-- The error messages `executeTrade` pushes onto `execution.errors`, as
tags carrying the data interpolated into the source string.
`partialFillRejected` corresponds to the source message ending in
`Manual intervention may be required.` (part_006 lines 789-792); `caught`
is the message of an exception reaching the outer catch (line 877). -/
inductive ExecMsg
  | insufficientBalance
  | buyOrderFailed (err : Option String)
  | partialFillRejected (fillPercent threshold bought requested : ℚ)
  | sellOrderFailedAfterBuy (err : Option String)
  | caught (err : String)
deriving DecidableEq

/-- The `ArbitrageExecution` record (part_007 lines 92-100) as finalized by
`executeTrade`; `errors` uses the `ExecMsg` tags. -/
structure ArbExecution where
  success : Bool
  buyTrade : Option TradeResult
  sellTrade : Option TradeResult
  actualProfit : Option ℚ
  errors : List ExecMsg
deriving DecidableEq

/-- Oracle for one strategy `executeTrade` run: the balance re-verification
outcome and the two leg submissions.  An `Except.error` leg models the
`withTimeout` wrapper or the venue call throwing; `Except.ok` is the
`TradeResult` the gateway returned. -/
structure StratEnv where
  balanceInfo : Option BalanceInfo
  buyOutcome : Except String TradeResult
  sellOutcome : Except String TradeResult
  buyClientOrderId : String
  sellClientOrderId : String

/-- The trade key `` `${symbol}-${buyExchange}-${sellExchange}` `` (part_006
lines 254 and 645). -/
def tradeKeyOf (opportunity : Opportunity) : String :=
  opportunity.symbol ++ "-" ++ opportunity.buyExchange ++ "-" ++ opportunity.sellExchange

/-- `tryAcquireTradeLock` (part_006 lines 253-271): a single synchronous
check-and-insert on the `activeTrades` set, with no `await` between the
membership test and the insert; in this embedding that synchronous block is
one atomic state transition. -/
def tryAcquireTradeLock (activeTrades : Finset String)
    (opportunity : Opportunity) : Option String × Finset String :=
  let tradeKey := tradeKeyOf opportunity
  if tradeKey ∈ activeTrades then (none, activeTrades)
  else (some tradeKey, insert tradeKey activeTrades)

/-- `releaseTradeLock` (part_006 lines 276-278). -/
def releaseTradeLock (activeTrades : Finset String) (tradeKey : String) :
    Finset String :=
  activeTrades.erase tradeKey

/-- The finally block of `executeTrade` (part_006 lines 888-898): release the
balance reservations and drop the trade key from `activeTrades`. -/
def finallyEvents (tradeKey : String) : List StratEvent :=
  [StratEvent.releaseReservation tradeKey, StratEvent.removeActiveTrade tradeKey]

/-- `SimpleArbitrage.executeTrade` (part_006 lines 643-899).  The trade lock
is already held.  Control flow in source order: abort when the balance
re-verification fails; reserve both legs; submit the buy; abort when the buy
throws (outer catch) or returns unsuccessfully; compute
`actualBuyAmount = buyResult.filled || opportunity.amount` and
`fillPercent = actualBuyAmount / opportunity.amount * 100`; abort when
`fillPercent` is below the partial-fill threshold; adjust the sell amount to
`actualBuyAmount` on a partial fill; submit the sell; compute the profit on
success.  Every path ends with the finally events. -/
def executeTrade (partialFillThreshold : ℚ) (opportunity : Opportunity)
    (env : StratEnv) : ArbExecution × List StratEvent :=
  let tradeKey := tradeKeyOf opportunity
  match env.balanceInfo with
  | none =>
    ({ success := false, buyTrade := none, sellTrade := none,
       actualProfit := none, errors := [ExecMsg.insufficientBalance] },
     finallyEvents tradeKey)
  | some balanceInfo =>
    let buyOrder : StratOrder :=
      { exchange := opportunity.buyExchange, symbol := opportunity.symbol,
        side := Side.buy, amount := opportunity.amount,
        clientOrderId := env.buyClientOrderId }
    let evs1 :=
      [StratEvent.reserveBalance tradeKey opportunity.buyExchange
         balanceInfo.quoteCurrency balanceInfo.requiredQuote,
       StratEvent.reserveBalance tradeKey opportunity.sellExchange
         balanceInfo.baseCurrency balanceInfo.requiredBase,
       StratEvent.submitBuy buyOrder]
    match env.buyOutcome with
    | Except.error msg =>
      ({ success := false, buyTrade := none, sellTrade := none,
         actualProfit := none, errors := [ExecMsg.caught msg] },
       evs1 ++ finallyEvents tradeKey)
    | Except.ok buyResult =>
      if buyResult.success = false then
        ({ success := false, buyTrade := some buyResult, sellTrade := none,
           actualProfit := none, errors := [ExecMsg.buyOrderFailed buyResult.error] },
         evs1 ++ finallyEvents tradeKey)
      else
        let actualBuyAmount :=
          if buyResult.filled = 0 then opportunity.amount else buyResult.filled
        let fillPercent := actualBuyAmount / opportunity.amount * 100
        if fillPercent < partialFillThreshold then
          ({ success := false, buyTrade := some buyResult, sellTrade := none,
             actualProfit := none,
             errors := [ExecMsg.partialFillRejected fillPercent
               partialFillThreshold actualBuyAmount opportunity.amount] },
           evs1 ++ finallyEvents tradeKey)
        else
          let sellAmount :=
            if fillPercent < 100 then actualBuyAmount else opportunity.amount
          let sellOrder : StratOrder :=
            { exchange := opportunity.sellExchange, symbol := opportunity.symbol,
              side := Side.sell, amount := sellAmount,
              clientOrderId := env.sellClientOrderId }
          let evs2 := evs1 ++ [StratEvent.submitSell sellOrder]
          match env.sellOutcome with
          | Except.error msg =>
            ({ success := false, buyTrade := some buyResult, sellTrade := none,
               actualProfit := none, errors := [ExecMsg.caught msg] },
             evs2 ++ finallyEvents tradeKey)
          | Except.ok sellResult =>
            if sellResult.success then
              ({ success := true, buyTrade := some buyResult,
                 sellTrade := some sellResult,
                 actualProfit := some ((sellResult.cost - sellResult.fee) -
                   (buyResult.cost + buyResult.fee)), errors := [] },
               evs2 ++ finallyEvents tradeKey)
            else
              ({ success := false, buyTrade := some buyResult,
                 sellTrade := some sellResult, actualProfit := none,
                 errors := [ExecMsg.sellOrderFailedAfterBuy sellResult.error] },
               evs2 ++ finallyEvents tradeKey)

end SimpleArbitrage

/-! Helper lemmas about the association-list primitives. -/

theorem lookupKey_setKey_self {β : Type} (l : List (String × β)) (k : String)
    (v : β) : lookupKey (setKey l k v) k = some v := by
  induction l with
  | nil => simp [setKey, lookupKey]
  | cons p rest ih =>
    by_cases h : p.1 = k
    · simp [setKey, h, lookupKey]
    · simp [setKey, h, lookupKey, ih]

theorem filter_not_mem_filter {α : Type} [DecidableEq α] (l : List α)
    (p : α → Bool) :
    l.filter (fun t => decide (t ∉ l.filter p)) = l.filter (fun t => !(p t)) := by
  apply List.filter_congr
  intro a ha
  by_cases h : p a = true
  · simp [List.mem_filter, ha, h]
  · simp [List.mem_filter, ha, h]

/-! Concrete fixtures used by witnesses and counterexamples. -/

/-- A representative opportunity: buy BTC/USDT on binance, sell on kraken. -/
def sampleOpportunity : Opportunity :=
  { symbol := "BTC/USDT"
    buyExchange := "binance"
    sellExchange := "kraken"
    amount := 10
    profitPercent := 1
    profitAmount := 10 }

/-- A fully filled successful buy result. -/
def sampleBuyResult : TradeResult :=
  { orderId := "B1"
    exchange := "binance"
    symbol := "BTC/USDT"
    side := Side.buy
    amount := 10
    filled := 10
    price := 100
    cost := 1000
    fee := 1
    timestamp := 1000
    success := true
    error := none }

/-- An empty ledger document. -/
def emptyPersistedState : PersistedState :=
  { version := 1, lastUpdated := 0, activeTrades := [] }

/-- A pending ledger entry for `sampleOpportunity`, started at time 0. -/
def samplePersistedTrade : PersistedTrade :=
  { tradeKey := "BTC/USDT-binance-kraken"
    opportunity := sampleOpportunity
    status := TradeStatus.pending
    buyResult := none
    sellResult := none
    startedAt := 0
    updatedAt := 0 }

/-- A ledger document holding the single entry `samplePersistedTrade`. -/
def oneTradeState : PersistedState :=
  { version := 1
    lastUpdated := 0
    activeTrades := [("BTC/USDT-binance-kraken", samplePersistedTrade)] }

/-- Event classifier: file writes. -/
def isWriteEvent : PersistEvent → Bool
  | PersistEvent.writeFile _ _ => true
  | _ => false

/-- Event classifier: file renames. -/
def isRenameEvent : PersistEvent → Bool
  | PersistEvent.renameFile _ _ => true
  | _ => false

/-- Event classifier: fsyncs. -/
def isFsyncEvent : PersistEvent → Bool
  | PersistEvent.fsyncFile _ => true
  | _ => false

/-! Claim C2. -/

/-- C2: `tryAcquireTradeLock` is an atomic check-and-insert on `activeTrades`:
it returns failure without touching the set when the trade key is present, and
inserts and returns the key when it is absent; consequently, of two
acquisition attempts on the same (instrument, buyVenue, sellVenue) run in
either order with no intervening release, exactly the first succeeds and the
second returns failure.  The source block (part_006 lines 253-271) contains no
await between `has()` and `add()`, so each attempt is a single atomic
transition in this model, and an interleaving of two attempts is one of the
two orders stated here. -/
theorem C2_trade_lock_exactly_one_winner (s : Finset String)
    (opp1 opp2 : Opportunity)
    (hkey : SimpleArbitrage.tradeKeyOf opp2 = SimpleArbitrage.tradeKeyOf opp1)
    (hfree : SimpleArbitrage.tradeKeyOf opp1 ∉ s) :
    (∀ t : Finset String, SimpleArbitrage.tradeKeyOf opp1 ∈ t →
       SimpleArbitrage.tryAcquireTradeLock t opp1 = (none, t)) ∧
    SimpleArbitrage.tryAcquireTradeLock s opp1 =
      (some (SimpleArbitrage.tradeKeyOf opp1),
       insert (SimpleArbitrage.tradeKeyOf opp1) s) ∧
    (SimpleArbitrage.tryAcquireTradeLock
      (SimpleArbitrage.tryAcquireTradeLock s opp1).2 opp2).1 = none ∧
    (SimpleArbitrage.tryAcquireTradeLock
      (SimpleArbitrage.tryAcquireTradeLock s opp1).2 opp2).2 =
      insert (SimpleArbitrage.tradeKeyOf opp1) s ∧
    (SimpleArbitrage.tryAcquireTradeLock s opp2).1 =
      some (SimpleArbitrage.tradeKeyOf opp2) ∧
    (SimpleArbitrage.tryAcquireTradeLock
      (SimpleArbitrage.tryAcquireTradeLock s opp2).2 opp1).1 = none := by
  refine ⟨fun t ht => ?_, ?_, ?_, ?_, ?_, ?_⟩ <;>
    simp [SimpleArbitrage.tryAcquireTradeLock, hkey, hfree, Finset.mem_insert]
  · exact ht

/-- Witness for C2 at the empty lock set with two attempts on the same
opportunity. -/
theorem C2_trade_lock_exactly_one_winner_witness :
    (SimpleArbitrage.tryAcquireTradeLock (∅ : Finset String) sampleOpportunity).1 =
      some (SimpleArbitrage.tradeKeyOf sampleOpportunity) ∧
    (SimpleArbitrage.tryAcquireTradeLock
      (SimpleArbitrage.tryAcquireTradeLock (∅ : Finset String) sampleOpportunity).2
      sampleOpportunity).1 = none := by
  have h := C2_trade_lock_exactly_one_winner (∅ : Finset String)
    sampleOpportunity sampleOpportunity rfl (by decide)
  refine ⟨?_, h.2.2.1⟩
  rw [h.2.1]

/-! Claim C6. -/

/-- C6 counterexample: at a concrete `recordTradeStart` call the persistence
layer emits exactly one file event, a direct `writeFile` of the state
document, and no rename and no fsync; this refutes the claim that every
mutation writes a temporary file, renames it into place, and fsyncs before
returning. -/
theorem C6_counterexample :
    ((TradeStatePersistence.recordTradeStart DEFAULT_STATE_FILE 1000
        emptyPersistedState sampleOpportunity).2.2).countP isWriteEvent = 1 ∧
    ((TradeStatePersistence.recordTradeStart DEFAULT_STATE_FILE 1000
        emptyPersistedState sampleOpportunity).2.2).countP isRenameEvent = 0 ∧
    ((TradeStatePersistence.recordTradeStart DEFAULT_STATE_FILE 1000
        emptyPersistedState sampleOpportunity).2.2).countP isFsyncEvent = 0 := by
  decide

/-- C6 amended: every ledger mutation (`recordTradeStart` unconditionally;
`recordBuyExecuted`, `recordTradeComplete`, `acknowledgeOrphanedTrade` when
the key is present) persists the full JSON state document with a single
direct `writeFile` to the state file path, awaited before the operation
returns — in particular `recordTradeStart` does not return the trade key
until the write has completed — but there is no temp-file rename and no
fsync. -/
theorem C6_single_direct_write_per_mutation (path : String) (now : ℤ)
    (st : PersistedState) (opportunity : Opportunity) (tradeKey : String)
    (buyResult : TradeResult) (success : Bool) (sellResult : Option TradeResult)
    (trade : PersistedTrade)
    (hkey : lookupKey st.activeTrades tradeKey = some trade) :
    (TradeStatePersistence.recordTradeStart path now st opportunity).2.2 =
      [PersistEvent.writeFile path
        (TradeStatePersistence.recordTradeStart path now st opportunity).2.1] ∧
    (TradeStatePersistence.recordBuyExecuted path now st tradeKey buyResult).2 =
      [PersistEvent.writeFile path
        (TradeStatePersistence.recordBuyExecuted path now st tradeKey buyResult).1] ∧
    (TradeStatePersistence.recordTradeComplete path now st tradeKey success
        sellResult).2 =
      [PersistEvent.writeFile path
        (TradeStatePersistence.recordTradeComplete path now st tradeKey success
          sellResult).1] ∧
    (TradeStatePersistence.acknowledgeOrphanedTrade path now st tradeKey).2 =
      [PersistEvent.writeFile path
        (TradeStatePersistence.acknowledgeOrphanedTrade path now st tradeKey).1] := by
  refine ⟨rfl, ?_, ?_, ?_⟩ <;>
    simp [TradeStatePersistence.recordBuyExecuted,
      TradeStatePersistence.recordTradeComplete,
      TradeStatePersistence.acknowledgeOrphanedTrade,
      TradeStatePersistence.forceSave, hkey]

/-- Witness for C6 amended at a state holding the sample trade. -/
theorem C6_single_direct_write_per_mutation_witness :
    (TradeStatePersistence.recordBuyExecuted DEFAULT_STATE_FILE 2000
        oneTradeState ("BTC/USDT-binance-kraken") sampleBuyResult).2 =
      [PersistEvent.writeFile DEFAULT_STATE_FILE
        (TradeStatePersistence.recordBuyExecuted DEFAULT_STATE_FILE 2000
          oneTradeState ("BTC/USDT-binance-kraken") sampleBuyResult).1] :=
  (C6_single_direct_write_per_mutation DEFAULT_STATE_FILE 2000 oneTradeState
    sampleOpportunity ("BTC/USDT-binance-kraken") sampleBuyResult true none
    samplePersistedTrade rfl).2.1

/-! Claim C8. -/

/-- C8: startup recovery partitions the persisted active trades by age:
`orphaned` is exactly the entries whose `startedAt` is more than 24 h old
(the threshold is the `detectOrphanedTrades` parameter, defaulted here),
`recovered` is exactly the rest; each orphan is reported with an operator
warning; the state is left unchanged by recovery, and an explicit
`acknowledgeOrphanedTrade` call removes the entry. -/
theorem C8_recovery_partition_and_acknowledge (now : ℤ) (st : PersistedState)
    (path : String) (tradeKey : String) (trade : PersistedTrade) :
    (TradeStatePersistence.recoverState now st).1.2 =
      (st.activeTrades.map Prod.snd).filter
        (fun t => decide (now - t.startedAt > ORPHAN_THRESHOLD_MS)) ∧
    (TradeStatePersistence.recoverState now st).1.1 =
      (st.activeTrades.map Prod.snd).filter
        (fun t => !(decide (now - t.startedAt > ORPHAN_THRESHOLD_MS))) ∧
    (TradeStatePersistence.recoverState now st).2.1 = st ∧
    (TradeStatePersistence.recoverState now st).2.2 =
      ((TradeStatePersistence.recoverState now st).1.2).map (fun t =>
        PersistEvent.logWarn
          ("ORPHANED TRADE DETECTED - Manual intervention may be required: " ++
            t.tradeKey)) ∧
    (lookupKey st.activeTrades tradeKey = some trade →
      (TradeStatePersistence.acknowledgeOrphanedTrade path now st
        tradeKey).1.activeTrades = eraseKey st.activeTrades tradeKey) := by
  refine ⟨rfl, ?_, rfl, rfl, fun h => ?_⟩
  · exact filter_not_mem_filter _ _
  · simp [TradeStatePersistence.acknowledgeOrphanedTrade,
      TradeStatePersistence.forceSave, h]

/-- Witness for C8 on a two-entry ledger observed 25 hours after the sample
trade started: the old entry is orphaned, the fresh one is recovered, and
acknowledging the orphan removes it. -/
theorem C8_recovery_partition_and_acknowledge_witness :
    (TradeStatePersistence.recoverState 90000000 oneTradeState).1.2 =
      [samplePersistedTrade] ∧
    (TradeStatePersistence.recoverState 90000000 oneTradeState).1.1 = [] ∧
    (TradeStatePersistence.acknowledgeOrphanedTrade DEFAULT_STATE_FILE 90000000
      oneTradeState ("BTC/USDT-binance-kraken")).1.activeTrades = [] := by
  have h := C8_recovery_partition_and_acknowledge 90000000 oneTradeState
    DEFAULT_STATE_FILE ("BTC/USDT-binance-kraken") samplePersistedTrade
  refine ⟨?_, ?_, ?_⟩
  · rw [h.1]; decide
  · rw [h.2.1]; decide
  · rw [h.2.2.2.2 rfl]; decide

/-! Claim C9. -/

/-- C9: calling `recordBuyExecuted`, `recordTradeComplete`, or
`acknowledgeOrphanedTrade` with a trade key absent from the active-trades map
logs a warning and returns normally, leaving the state unchanged and emitting
no file-system event. -/
theorem C9_missing_key_mutations_are_noops (path : String) (now : ℤ)
    (st : PersistedState) (tradeKey : String) (buyResult : TradeResult)
    (success : Bool) (sellResult : Option TradeResult)
    (h : lookupKey st.activeTrades tradeKey = none) :
    TradeStatePersistence.recordBuyExecuted path now st tradeKey buyResult =
      (st, [PersistEvent.logWarn ("Attempted to update non-existent trade")]) ∧
    TradeStatePersistence.recordTradeComplete path now st tradeKey success
        sellResult =
      (st, [PersistEvent.logWarn ("Attempted to complete non-existent trade")]) ∧
    TradeStatePersistence.acknowledgeOrphanedTrade path now st tradeKey =
      (st, [PersistEvent.logWarn ("Attempted to acknowledge non-existent trade")]) := by
  refine ⟨?_, ?_, ?_⟩ <;>
    simp [TradeStatePersistence.recordBuyExecuted,
      TradeStatePersistence.recordTradeComplete,
      TradeStatePersistence.acknowledgeOrphanedTrade, h]

/-! Claims C1 and C4. -/

open SimpleArbitrage

/-- Event classifier: leg submissions (buy or sell). -/
def isSubmitEvent : StratEvent → Bool
  | StratEvent.submitBuy _ => true
  | StratEvent.submitSell _ => true
  | _ => false

/-- Event classifier: sell submissions. -/
def isSubmitSellEvent : StratEvent → Bool
  | StratEvent.submitSell _ => true
  | _ => false

/-- C1: in every run of the strategy `executeTrade`, the submission
subsequence of the event trace is empty, a lone buy, or a buy followed by a
sell — and the last shape occurs only when the buy submission returned with
`success = true`.  Hence a sell is attempted only after a successful buy, and
a failed or aborted buy leg never leads to a sell submission. -/
theorem C1_sell_only_after_successful_buy (thr : ℚ) (opportunity : Opportunity)
    (env : StratEnv) :
    (SimpleArbitrage.executeTrade thr opportunity env).2.filter isSubmitEvent = [] ∨
    (∃ b, (SimpleArbitrage.executeTrade thr opportunity env).2.filter
        isSubmitEvent = [StratEvent.submitBuy b]) ∨
    (∃ b so r,
      (SimpleArbitrage.executeTrade thr opportunity env).2.filter isSubmitEvent =
        [StratEvent.submitBuy b, StratEvent.submitSell so] ∧
      env.buyOutcome = Except.ok r ∧ r.success = true) := by
  obtain ⟨bi, buyO, sellO, bc, sc⟩ := env
  cases bi with
  | none => left; rfl
  | some balanceInfo =>
    cases buyO with
    | error msg =>
      right; left
      exact ⟨{ exchange := opportunity.buyExchange, symbol := opportunity.symbol,
               side := Side.buy, amount := opportunity.amount,
               clientOrderId := bc }, rfl⟩
    | ok buyResult =>
      by_cases hs : buyResult.success = false
      · right; left
        refine ⟨{ exchange := opportunity.buyExchange, symbol := opportunity.symbol,
                  side := Side.buy, amount := opportunity.amount,
                  clientOrderId := bc }, ?_⟩
        simp [SimpleArbitrage.executeTrade, hs, isSubmitEvent,
          SimpleArbitrage.finallyEvents]
      · by_cases hf : (if buyResult.filled = 0 then opportunity.amount
            else buyResult.filled) / opportunity.amount * 100 < thr
        · right; left
          refine ⟨{ exchange := opportunity.buyExchange,
                    symbol := opportunity.symbol, side := Side.buy,
                    amount := opportunity.amount, clientOrderId := bc }, ?_⟩
          simp [SimpleArbitrage.executeTrade, hs, hf,
            SimpleArbitrage.finallyEvents, isSubmitEvent]
        · right; right
          refine ⟨{ exchange := opportunity.buyExchange,
                    symbol := opportunity.symbol, side := Side.buy,
                    amount := opportunity.amount, clientOrderId := bc },
                  { exchange := opportunity.sellExchange,
                    symbol := opportunity.symbol, side := Side.sell,
                    amount := if (if buyResult.filled = 0 then opportunity.amount
                        else buyResult.filled) / opportunity.amount * 100 < 100 then
                        (if buyResult.filled = 0 then opportunity.amount
                         else buyResult.filled)
                      else opportunity.amount, clientOrderId := sc },
                  buyResult, ?_, rfl, by simpa using hs⟩
          cases sellO with
          | error msg =>
            simp [SimpleArbitrage.executeTrade, hs, hf,
              SimpleArbitrage.finallyEvents, isSubmitEvent]
          | ok sellResult =>
            by_cases hss : sellResult.success
            · simp [SimpleArbitrage.executeTrade, hs, hf, hss,
                SimpleArbitrage.finallyEvents, isSubmitEvent]
            · simp [SimpleArbitrage.executeTrade, hs, hf, hss,
                SimpleArbitrage.finallyEvents, isSubmitEvent]

/-- The buy result driving the C4 counterexample: a successful buy whose
`filled` field is 0. -/
def buyResultZeroFill : TradeResult :=
  { orderId := "B0"
    exchange := "binance"
    symbol := "BTC/USDT"
    side := Side.buy
    amount := 10
    filled := 0
    price := 100
    cost := 0
    fee := 0
    timestamp := 1000
    success := true
    error := none }

/-- A successful sell result used by the C4 counterexample environment. -/
def sellResultC4 : TradeResult :=
  { orderId := "S0"
    exchange := "kraken"
    symbol := "BTC/USDT"
    side := Side.sell
    amount := 10
    filled := 10
    price := 101
    cost := 1010
    fee := 1
    timestamp := 1001
    success := true
    error := none }

/-- The strategy environment for the C4 counterexample. -/
def envC4 : StratEnv :=
  { balanceInfo := some
      { quoteCurrency := "USDT", baseCurrency := "BTC",
        requiredQuote := 1000, requiredBase := 10 }
    buyOutcome := Except.ok buyResultZeroFill
    sellOutcome := Except.ok sellResultC4
    buyClientOrderId := "cb1"
    sellClientOrderId := "cs1" }

/-- C4 counterexample: with a successful buy whose `filled` is 0 and the
default threshold 95, the claimed fill percentage
`buyResult.filledAmount / opportunity.amount × 100` is 0 (far below the
threshold), so the claim demands a failed trade and no sell — but the source
computes `actualBuyAmount = buyResult.filled || opportunity.amount`, treats
the zero fill as a full fill, submits the sell for the full requested
amount, and completes the trade successfully. -/
theorem C4_counterexample :
    buyResultZeroFill.success = true ∧
    buyResultZeroFill.filled / sampleOpportunity.amount * 100 < 95 ∧
    (SimpleArbitrage.executeTrade 95 sampleOpportunity envC4).2.filter
        isSubmitSellEvent =
      [StratEvent.submitSell
        { exchange := "kraken", symbol := "BTC/USDT", side := Side.sell,
          amount := 10, clientOrderId := "cs1" }] ∧
    (SimpleArbitrage.executeTrade 95 sampleOpportunity envC4).1.success = true := by
  refine ⟨rfl, by norm_num [buyResultZeroFill, sampleOpportunity], ?_, ?_⟩ <;>
    norm_num [SimpleArbitrage.executeTrade, envC4, buyResultZeroFill, sellResultC4,
      sampleOpportunity, SimpleArbitrage.finallyEvents, isSubmitSellEvent]

/-- C4 amended: for a trade whose buy leg returns successfully, the source
computes `actualBuyAmount = buyResult.filled || opportunity.amount` (a zero
or missing fill falls back to the full requested amount) and
`fillPercent = actualBuyAmount / opportunity.amount × 100`.  If `fillPercent`
is below the partial-fill threshold the trade is recorded as failed with the
manual-intervention message and no sell is submitted; if the fill is partial
but at or above the threshold, the sell is submitted with its amount equal to
`buyResult.filled`. -/
theorem C4_partial_fill_handling (thr : ℚ) (opportunity : Opportunity)
    (env : StratEnv) (bi : BalanceInfo) (r : TradeResult)
    (hbi : env.balanceInfo = some bi)
    (hbuy : env.buyOutcome = Except.ok r)
    (hsucc : r.success = true)
    (hamt : 0 < opportunity.amount) :
    ((if r.filled = 0 then opportunity.amount else r.filled) /
          opportunity.amount * 100 < thr →
      (SimpleArbitrage.executeTrade thr opportunity env).1.success = false ∧
      (SimpleArbitrage.executeTrade thr opportunity env).1.errors =
        [ExecMsg.partialFillRejected
          ((if r.filled = 0 then opportunity.amount else r.filled) /
            opportunity.amount * 100) thr
          (if r.filled = 0 then opportunity.amount else r.filled)
          opportunity.amount] ∧
      (SimpleArbitrage.executeTrade thr opportunity env).2.filter
        isSubmitSellEvent = []) ∧
    (thr ≤ (if r.filled = 0 then opportunity.amount else r.filled) /
          opportunity.amount * 100 →
     (if r.filled = 0 then opportunity.amount else r.filled) /
          opportunity.amount * 100 < 100 →
      (SimpleArbitrage.executeTrade thr opportunity env).2.filter
          isSubmitSellEvent =
        [StratEvent.submitSell
          { exchange := opportunity.sellExchange, symbol := opportunity.symbol,
            side := Side.sell, amount := r.filled,
            clientOrderId := env.sellClientOrderId }]) := by
  obtain ⟨biv, buyO, sellO, bc, sc⟩ := env
  simp only at hbi hbuy
  subst hbi
  subst hbuy
  constructor
  · intro hlow
    unfold SimpleArbitrage.executeTrade
    simp only [hsucc, Bool.true_eq_false, if_false, ite_false]
    rw [if_pos hlow]
    refine ⟨rfl, rfl, ?_⟩
    simp [SimpleArbitrage.finallyEvents, isSubmitSellEvent]
  · intro hge hpartial
    have hfz : r.filled ≠ 0 := by
      intro h0
      rw [if_pos h0, div_self (ne_of_gt hamt)] at hpartial
      norm_num at hpartial
    rw [if_neg hfz] at hge hpartial
    unfold SimpleArbitrage.executeTrade
    simp only [hsucc, Bool.true_eq_false, if_false, ite_false, if_neg hfz]
    rw [if_neg (not_lt.mpr hge), if_pos hpartial]
    cases sellO with
    | error msg =>
      simp [SimpleArbitrage.finallyEvents, isSubmitSellEvent]
    | ok sellResult =>
      by_cases hss : sellResult.success <;>
        simp [SimpleArbitrage.finallyEvents, isSubmitSellEvent, hss]

/-- The environment of the C4 witness: a 97 % filled successful buy. -/
def envC4Witness : StratEnv :=
  { balanceInfo := some
      { quoteCurrency := "USDT", baseCurrency := "BTC",
        requiredQuote := 1000, requiredBase := 10 }
    buyOutcome := Except.ok { sampleBuyResult with filled := 97 / 10 }
    sellOutcome := Except.ok sellResultC4
    buyClientOrderId := "cb2"
    sellClientOrderId := "cs2" }

/-- Witness for C4 amended: a 97 % fill against the default 95 % threshold
submits the sell with amount 9.7. -/
theorem C4_partial_fill_handling_witness :
    (SimpleArbitrage.executeTrade 95 sampleOpportunity envC4Witness).2.filter
        isSubmitSellEvent =
      [StratEvent.submitSell
        { exchange := "kraken", symbol := "BTC/USDT", side := Side.sell,
          amount := 97 / 10, clientOrderId := "cs2" }] := by
  have h := (C4_partial_fill_handling 95 sampleOpportunity envC4Witness
    { quoteCurrency := "USDT", baseCurrency := "BTC",
      requiredQuote := 1000, requiredBase := 10 }
    { sampleBuyResult with filled := 97 / 10 }
    rfl rfl rfl (by norm_num [sampleOpportunity])).2
    (by norm_num [sampleOpportunity, sampleBuyResult])
    (by norm_num [sampleOpportunity, sampleBuyResult])
  simpa [sampleOpportunity, envC4Witness] using h

/-! Claims C3, C5, C7 and C10: the venue-gateway order path. -/

/-- Event classifier: venue order creations. -/
def isCreateOrderEvent : EMEvent → Bool
  | EMEvent.createOrder _ _ _ _ _ => true
  | _ => false

/-- Event classifier: rate-limiter interactions (token acquisition or
`recordRateLimitError`). -/
def isRateLimiterEvent : EMEvent → Bool
  | EMEvent.rateLimitAcquire _ => true
  | EMEvent.rateLimitOnThrottled _ => true
  | _ => false

theorem shortCircuitCheck_events (st1 : EMState) (env : EMEnv)
    (order : TradeOrder) (cid : String) :
    (ExchangeManager.shortCircuitCheck st1 env order cid).2 = [] ∨
    ∃ oid, (ExchangeManager.shortCircuitCheck st1 env order cid).2 =
      [EMEvent.fetchOrder order.exchange oid] := by
  unfold ExchangeManager.shortCircuitCheck
  cases lookupKey st1.recentOrders cid with
  | none => left; rfl
  | some info =>
    cases env.fetchOrderResp with
    | none => right; exact ⟨info.orderId, rfl⟩
    | some o => right; exact ⟨info.orderId, rfl⟩

theorem findRecentOrderByParams_events (st : EMState) (env : EMEnv)
    (e s : String) (sd : Side) (amt : ℚ) :
    (ExchangeManager.findRecentOrderByParams st env e s sd amt).2 = [] ∨
    (ExchangeManager.findRecentOrderByParams st env e s sd amt).2 =
      [EMEvent.fetchOrders s 10] := by
  cases hx : lookupKey st.exchanges e with
  | none => left; simp [ExchangeManager.findRecentOrderByParams, hx]
  | some c =>
    cases ho : env.fetchOrdersResp with
    | none => right; simp [ExchangeManager.findRecentOrderByParams, hx, ho]
    | some orders =>
      cases hf : orders.find?
          (fun o => ExchangeManager.matchesRecentOrder env.nowCatch sd amt o) with
      | none => right; simp [ExchangeManager.findRecentOrderByParams, hx, ho, hf]
      | some o => right; simp [ExchangeManager.findRecentOrderByParams, hx, ho, hf]

theorem findRecentOrderByParams_spec (st : EMState) (env : EMEnv)
    (e s : String) (sd : Side) (amt : ℚ) (c : Bool)
    (h : lookupKey st.exchanges e = some c) :
    ExchangeManager.findRecentOrderByParams st env e s sd amt =
      ((env.fetchOrdersResp.bind (fun orders => orders.find?
          (fun o => ExchangeManager.matchesRecentOrder env.nowCatch sd amt o))).map
        (fun o => ExchangeManager.hydrateRecentOrder e s sd amt env.nowCatch o),
       [EMEvent.fetchOrders s 10]) := by
  cases ho : env.fetchOrdersResp with
  | none => simp [ExchangeManager.findRecentOrderByParams, h, ho]
  | some orders =>
    cases hf : orders.find?
        (fun o => ExchangeManager.matchesRecentOrder env.nowCatch sd amt o) with
    | none => simp [ExchangeManager.findRecentOrderByParams, h, ho, hf]
    | some o => simp [ExchangeManager.findRecentOrderByParams, h, ho, hf]

theorem submitPath_events (st1 : EMState) (env : EMEnv) (order : TradeOrder)
    (cid : String) :
    ∃ tail, (ExchangeManager.submitPath st1 env order cid).2.2 =
      EMEvent.createOrder order.exchange order.symbol order.side order.amount cid
        :: tail ∧
      tail.countP isCreateOrderEvent = 0 ∧ tail.countP isRateLimiterEvent = 0 := by
  unfold ExchangeManager.submitPath
  cases env.createOrderResult with
  | ok res => exact ⟨[], rfl, rfl, rfl⟩
  | error msg =>
    by_cases ht : isTimeoutMessage msg = true
    · simp only [ht, if_true, ite_true]
      rcases findRecentOrderByParams_events st1 env order.exchange order.symbol
          order.side order.amount with hev | hev
      · cases hf : (ExchangeManager.findRecentOrderByParams st1 env order.exchange
            order.symbol order.side order.amount).1 with
        | some existing =>
          refine ⟨[EMEvent.sleepMs 2000], ?_, rfl, rfl⟩
          simp [hf, hev]
        | none =>
          refine ⟨[EMEvent.sleepMs 2000,
            EMEvent.handleExchangeError order.exchange ("executeTrade")], ?_, rfl, rfl⟩
          simp [hf, hev]
      · cases hf : (ExchangeManager.findRecentOrderByParams st1 env order.exchange
            order.symbol order.side order.amount).1 with
        | some existing =>
          refine ⟨[EMEvent.sleepMs 2000, EMEvent.fetchOrders order.symbol 10],
            ?_, rfl, rfl⟩
          simp [hf, hev]
        | none =>
          refine ⟨[EMEvent.sleepMs 2000, EMEvent.fetchOrders order.symbol 10,
            EMEvent.handleExchangeError order.exchange ("executeTrade")], ?_, rfl, rfl⟩
          simp [hf, hev]
    · simp only [ht, if_false, ite_false, Bool.not_eq_true] at ht ⊢
      rw [if_neg (by simp [ht])]
      exact ⟨[EMEvent.handleExchangeError order.exchange ("executeTrade")], rfl, rfl, rfl⟩

theorem executeTrade_no_rate_limiter (st : EMState) (env : EMEnv)
    (order : TradeOrder) :
    ((ExchangeManager.executeTrade st env order).2.2).countP isRateLimiterEvent = 0 := by
  cases hx : lookupKey st.exchanges order.exchange with
  | none => simp [ExchangeManager.executeTrade, hx]
  | some cap =>
    by_cases hc : cap = false
    · simp [ExchangeManager.executeTrade, hx, hc]
    · rcases hsc : ExchangeManager.shortCircuitCheck
          (ExchangeManager.cleanupRecentOrders env.nowStart st) env order
          (jsOrStr order.clientOrderIdParam env.freshClientOrderId) with ⟨sc, evs0⟩
      have hevs0 : evs0.countP isRateLimiterEvent = 0 := by
        rcases shortCircuitCheck_events
            (ExchangeManager.cleanupRecentOrders env.nowStart st) env order
            (jsOrStr order.clientOrderIdParam env.freshClientOrderId) with h | ⟨oid, h⟩ <;>
          rw [hsc] at h <;> dsimp only at h <;> simp [h, isRateLimiterEvent]
      cases sc with
      | some r => simp [ExchangeManager.executeTrade, hx, hc, hsc, hevs0]
      | none =>
        rcases submitPath_events
            (ExchangeManager.cleanupRecentOrders env.nowStart st) env order
            (jsOrStr order.clientOrderIdParam env.freshClientOrderId) with
          ⟨tail, hsp, hc1, hc2⟩
        simp [ExchangeManager.executeTrade, hx, hc, hsc, hsp, List.countP_append,
          hevs0, hc2, List.countP_cons, isRateLimiterEvent]

/-- C3 counterexample state: a registered venue and a fresh `recentOrders`
entry for `cid1`. -/
def stC3 : EMState :=
  { exchanges := [("binance", true)]
    recentOrders := [("cid1", { orderId := "prev1", timestamp := 1000, exchange := "binance" })] }

/-- C3 counterexample order: a retry carrying the already-recorded `cid1`. -/
def orderC3 : TradeOrder :=
  { exchange := "binance", symbol := "BTC/USDT", side := Side.buy,
    amount := 10, price := none, clientOrderIdParam := some ("cid1") }

/-- C3 counterexample environment: the hydration fetch for the recorded order
fails (`fetchOrder` returns null or throws), while the venue would accept a
new order. -/
def envC3 : EMEnv :=
  { nowStart := 1000
    nowCatch := 3000
    freshClientOrderId := "gen1"
    createOrderResult := Except.ok
      { id := "new1", filled := some 10, average := some 100,
        cost := some 1000, feeCost := some 1, timestamp := some 1000 }
    fetchOrderResp := none
    fetchOrdersResp := none }

/-- C3 counterexample: `recentOrders` holds an entry for the request's
`clientOrderId`, yet `executeTrade` still calls the venue `createOrder`
(because the `fetchOrder` hydration failed and the code falls through to a
fresh submission), so a retry can create a second order at the venue —
refuting the claim that an existing entry always short-circuits without
calling `createOrder`. -/
theorem C3_counterexample :
    lookupKey stC3.recentOrders ("cid1") =
      some { orderId := "prev1", timestamp := 1000, exchange := "binance" } ∧
    ((ExchangeManager.executeTrade stC3 envC3 orderC3).2.2).countP
      isCreateOrderEvent = 1 := by
  constructor
  · rfl
  · rfl

/-- C3 amended: within one `executeTrade` invocation the venue `createOrder`
is called at most once (there is no internal retry); and when `recentOrders`
(after TTL cleanup) holds an entry for the request's `clientOrderId` and the
`fetchOrder` hydration of that order succeeds, `executeTrade` returns the
hydrated result and `createOrder` is not called.  When the hydration fails,
the call falls through to a fresh submission, so the venue-level at-most-once
guarantee across retries holds only as long as hydration succeeds. -/
theorem C3_at_most_once_submission (st : EMState) (env : EMEnv)
    (order : TradeOrder) :
    ((ExchangeManager.executeTrade st env order).2.2).countP isCreateOrderEvent ≤ 1 ∧
    (∀ info o,
      lookupKey st.exchanges order.exchange = some true →
      lookupKey (ExchangeManager.cleanupRecentOrders env.nowStart st).recentOrders
        (jsOrStr order.clientOrderIdParam env.freshClientOrderId) = some info →
      env.fetchOrderResp = some o →
      (ExchangeManager.executeTrade st env order).1 =
        Except.ok (ExchangeManager.hydrateFetchedOrder order.exchange order.symbol
          env.nowStart o) ∧
      ((ExchangeManager.executeTrade st env order).2.2).countP
        isCreateOrderEvent = 0) := by
  constructor
  · cases hx : lookupKey st.exchanges order.exchange with
    | none => simp [ExchangeManager.executeTrade, hx]
    | some cap =>
      by_cases hc : cap = false
      · simp [ExchangeManager.executeTrade, hx, hc]
      · rcases hsc : ExchangeManager.shortCircuitCheck
            (ExchangeManager.cleanupRecentOrders env.nowStart st) env order
            (jsOrStr order.clientOrderIdParam env.freshClientOrderId) with ⟨sc, evs0⟩
        have hevs0 : evs0.countP isCreateOrderEvent = 0 := by
          rcases shortCircuitCheck_events
              (ExchangeManager.cleanupRecentOrders env.nowStart st) env order
              (jsOrStr order.clientOrderIdParam env.freshClientOrderId) with h | ⟨oid, h⟩ <;>
            rw [hsc] at h <;> dsimp only at h <;> simp [h, isCreateOrderEvent]
        cases sc with
        | some r => simp [ExchangeManager.executeTrade, hx, hc, hsc, hevs0]
        | none =>
          rcases submitPath_events
              (ExchangeManager.cleanupRecentOrders env.nowStart st) env order
              (jsOrStr order.clientOrderIdParam env.freshClientOrderId) with
            ⟨tail, hsp, hc1, hc2⟩
          simp [ExchangeManager.executeTrade, hx, hc, hsc, hsp,
            List.countP_append, hevs0, hc1, List.countP_cons, isCreateOrderEvent]
  · intro info o hreg hentry hfetch
    have hsc : ExchangeManager.shortCircuitCheck
        (ExchangeManager.cleanupRecentOrders env.nowStart st) env order
        (jsOrStr order.clientOrderIdParam env.freshClientOrderId) =
        (some (ExchangeManager.hydrateFetchedOrder order.exchange order.symbol
          env.nowStart o), [EMEvent.fetchOrder order.exchange info.orderId]) := by
      simp [ExchangeManager.shortCircuitCheck, hentry, hfetch]
    constructor <;> simp [ExchangeManager.executeTrade, hreg, hsc, isCreateOrderEvent]

/-- The previously created venue order hydrated in the C3 witness. -/
def fetchedOrderC3 : VenueOrder :=
  { id := "prev1", side := Side.buy, amount := some 10, filled := some 10,
    price := some 100, average := some 100, cost := some 1000,
    feeCost := some 1, timestamp := some 900, status := "closed" }

/-- The C3 witness environment: the hydration fetch succeeds. -/
def envC3Hydrated : EMEnv :=
  { envC3 with fetchOrderResp := some fetchedOrderC3 }

/-- Witness for C3 amended: a recorded `clientOrderId` whose hydration
succeeds short-circuits without a venue submission. -/
theorem C3_at_most_once_submission_witness :
    (ExchangeManager.executeTrade stC3 envC3Hydrated orderC3).1 =
      Except.ok (ExchangeManager.hydrateFetchedOrder ("binance") ("BTC/USDT") 1000
        fetchedOrderC3) ∧
    ((ExchangeManager.executeTrade stC3 envC3Hydrated orderC3).2.2).countP
      isCreateOrderEvent = 0 := by
  have h := (C3_at_most_once_submission stC3 envC3Hydrated orderC3).2
    { orderId := "prev1", timestamp := 1000, exchange := "binance" }
    fetchedOrderC3 rfl rfl rfl
  exact h

theorem matchesRecentOrder_iff (now : ℤ) (sd : Side) (amt : ℚ) (o : VenueOrder) :
    ExchangeManager.matchesRecentOrder now sd amt o = true ↔
      (now - 30000 ≤ jsOrZ o.timestamp 0 ∧ o.side = sd ∧ amt ≠ 0 ∧
       |jsOrQ o.amount 0 - amt| / amt < 1 / 100) := by
  unfold ExchangeManager.matchesRecentOrder
  by_cases h1 : jsOrZ o.timestamp 0 < now - 30000
  · simp only [h1, if_true, Bool.false_eq_true, false_iff]
    rintro ⟨ha, -⟩
    omega
  · rw [if_neg h1]
    by_cases h2 : o.side = sd
    · rw [if_pos h2]
      by_cases h3 : amt = 0
      · rw [if_pos h3]
        simp [h3]
      · rw [if_neg h3]
        simp only [decide_eq_true_eq]
        constructor
        · intro hq
          exact ⟨not_lt.mp h1, h2, h3, hq⟩
        · rintro ⟨-, -, -, hq⟩
          exact hq
    · rw [if_neg h2]
      simp [h2]

theorem shortCircuitCheck_none_of_no_entry (st1 : EMState) (env : EMEnv)
    (order : TradeOrder) (cid : String)
    (h : lookupKey st1.recentOrders cid = none) :
    ExchangeManager.shortCircuitCheck st1 env order cid = (none, []) := by
  simp [ExchangeManager.shortCircuitCheck, h]

/-- C5: when `createOrder` throws an exception whose text matches the timeout
pattern, `executeTrade` sleeps 2 s, fetches the 10 most recent orders for the
instrument, and scans them with `matchesRecentOrder` — an order created
within the last 30 s, with the requested side, and an amount within 1 % of
the request (first conjunct characterizes the predicate).  If a match is
found it is recorded in `recentOrders` under the `clientOrderId` and returned
as the result; otherwise the failure result is returned. -/
theorem C5_timeout_recovery (st : EMState) (env : EMEnv) (order : TradeOrder)
    (msg : String)
    (hreg : lookupKey st.exchanges order.exchange = some true)
    (hnoentry : lookupKey
        (ExchangeManager.cleanupRecentOrders env.nowStart st).recentOrders
        (jsOrStr order.clientOrderIdParam env.freshClientOrderId) = none)
    (herr : env.createOrderResult = Except.error msg)
    (htimeout : isTimeoutMessage msg = true) :
    (∀ now sd amt o, ExchangeManager.matchesRecentOrder now sd amt o = true ↔
       (now - 30000 ≤ jsOrZ o.timestamp 0 ∧ o.side = sd ∧ amt ≠ 0 ∧
        |jsOrQ o.amount 0 - amt| / amt < 1 / 100)) ∧
    (∀ o, env.fetchOrdersResp.bind (fun orders => orders.find?
          (fun v => ExchangeManager.matchesRecentOrder env.nowCatch order.side
            order.amount v)) = some o →
      (ExchangeManager.executeTrade st env order).1 =
        Except.ok (ExchangeManager.hydrateRecentOrder order.exchange order.symbol
          order.side order.amount env.nowCatch o) ∧
      lookupKey (ExchangeManager.executeTrade st env order).2.1.recentOrders
          (jsOrStr order.clientOrderIdParam env.freshClientOrderId) =
        some { orderId := o.id, timestamp := env.nowCatch, exchange := order.exchange } ∧
      (ExchangeManager.executeTrade st env order).2.2 =
        [EMEvent.createOrder order.exchange order.symbol order.side order.amount
          (jsOrStr order.clientOrderIdParam env.freshClientOrderId),
         EMEvent.sleepMs 2000, EMEvent.fetchOrders order.symbol 10]) ∧
    (env.fetchOrdersResp.bind (fun orders => orders.find?
          (fun v => ExchangeManager.matchesRecentOrder env.nowCatch order.side
            order.amount v)) = none →
      (ExchangeManager.executeTrade st env order).1 =
        Except.ok (ExchangeManager.failureResult order msg env.nowCatch) ∧
      (ExchangeManager.failureResult order msg env.nowCatch).success = false ∧
      (ExchangeManager.executeTrade st env order).2.2 =
        [EMEvent.createOrder order.exchange order.symbol order.side order.amount
          (jsOrStr order.clientOrderIdParam env.freshClientOrderId),
         EMEvent.sleepMs 2000, EMEvent.fetchOrders order.symbol 10,
         EMEvent.handleExchangeError order.exchange ("executeTrade")]) := by
  have hsc := shortCircuitCheck_none_of_no_entry
    (ExchangeManager.cleanupRecentOrders env.nowStart st) env order
    (jsOrStr order.clientOrderIdParam env.freshClientOrderId) hnoentry
  have hfr := findRecentOrderByParams_spec
    (ExchangeManager.cleanupRecentOrders env.nowStart st) env order.exchange
    order.symbol order.side order.amount true hreg
  refine ⟨fun now sd amt o => matchesRecentOrder_iff now sd amt o, ?_, ?_⟩
  · intro o hscan
    have hres : ExchangeManager.executeTrade st env order =
        (Except.ok (ExchangeManager.hydrateRecentOrder order.exchange order.symbol
          order.side order.amount env.nowCatch o),
         { ExchangeManager.cleanupRecentOrders env.nowStart st with
           recentOrders := setKey
             (ExchangeManager.cleanupRecentOrders env.nowStart st).recentOrders
             (jsOrStr order.clientOrderIdParam env.freshClientOrderId)
             { orderId := (ExchangeManager.hydrateRecentOrder order.exchange
                 order.symbol order.side order.amount env.nowCatch o).orderId
               timestamp := env.nowCatch
               exchange := order.exchange } },
         [EMEvent.createOrder order.exchange order.symbol order.side order.amount
           (jsOrStr order.clientOrderIdParam env.freshClientOrderId),
          EMEvent.sleepMs 2000, EMEvent.fetchOrders order.symbol 10]) := by
      simp [ExchangeManager.executeTrade, hreg, hsc, ExchangeManager.submitPath,
        herr, htimeout, hfr, hscan]
    refine ⟨by rw [hres], ?_, by rw [hres]⟩
    rw [hres]
    exact lookupKey_setKey_self _ _ _
  · intro hscan
    have hres : ExchangeManager.executeTrade st env order =
        (Except.ok (ExchangeManager.failureResult order msg env.nowCatch),
         ExchangeManager.cleanupRecentOrders env.nowStart st,
         [EMEvent.createOrder order.exchange order.symbol order.side order.amount
           (jsOrStr order.clientOrderIdParam env.freshClientOrderId),
          EMEvent.sleepMs 2000, EMEvent.fetchOrders order.symbol 10,
          EMEvent.handleExchangeError order.exchange ("executeTrade")]) := by
      simp [ExchangeManager.executeTrade, hreg, hsc, ExchangeManager.submitPath,
        herr, htimeout, hfr, hscan]
    exact ⟨by rw [hres], rfl, by rw [hres]⟩

/-- The C5 witness state: one registered venue, empty `recentOrders`. -/
def stC5 : EMState := { exchanges := [("binance", true)], recentOrders := [] }

/-- The C5 witness order. -/
def orderC5 : TradeOrder :=
  { exchange := "binance", symbol := "BTC/USDT", side := Side.buy,
    amount := 10, price := none, clientOrderIdParam := some ("cid5") }

/-- The matching recent order found by the C5 witness scan: created 1 s
before the catch-path clock reading, same side, same amount. -/
def matchOrderC5 : VenueOrder :=
  { id := "m1", side := Side.buy, amount := some 10, filled := some 10,
    price := some 100, average := some 100, cost := some 1000,
    feeCost := some 1, timestamp := some 4000, status := "closed" }

/-- The C5 witness environment: `createOrder` throws a timeout and the
recent-orders scan exposes `matchOrderC5`. -/
def envC5 : EMEnv :=
  { nowStart := 1000
    nowCatch := 5000
    freshClientOrderId := "g5"
    createOrderResult := Except.error ("Request timeout")
    fetchOrderResp := none
    fetchOrdersResp := some [matchOrderC5] }

/-- Witness for C5: the timed-out submission is recovered from the recent
orders and recorded under the `clientOrderId`. -/
theorem C5_timeout_recovery_witness :
    (ExchangeManager.executeTrade stC5 envC5 orderC5).1 =
      Except.ok (ExchangeManager.hydrateRecentOrder ("binance") ("BTC/USDT")
        Side.buy 10 5000 matchOrderC5) ∧
    lookupKey (ExchangeManager.executeTrade stC5 envC5 orderC5).2.1.recentOrders
      ("cid5") = some { orderId := "m1", timestamp := 5000, exchange := "binance" } := by
  have hscan : envC5.fetchOrdersResp.bind (fun orders => orders.find?
      (fun v => ExchangeManager.matchesRecentOrder envC5.nowCatch orderC5.side
        orderC5.amount v)) = some matchOrderC5 := by
    norm_num [envC5, orderC5, matchOrderC5, ExchangeManager.matchesRecentOrder,
      jsOrZ, jsOrQ, List.find?]
  have h := (C5_timeout_recovery stC5 envC5 orderC5 ("Request timeout")
    rfl rfl rfl (by decide)).2.1 matchOrderC5 hscan
  exact ⟨h.1, h.2.1⟩

/-- The C7 counterexample message: matches the throttling pattern and not the
timeout pattern. -/
def throttleMsgC7 : String := "429 Too Many Requests: rate limit exceeded"

/-- The C7 counterexample state. -/
def stC7 : EMState := { exchanges := [("binance", true)], recentOrders := [] }

/-- The C7 counterexample order. -/
def orderC7 : TradeOrder :=
  { exchange := "binance", symbol := "BTC/USDT", side := Side.buy,
    amount := 10, price := none, clientOrderIdParam := some ("cid7") }

/-- The C7 counterexample environment: `createOrder` throws a throttling
error. -/
def envC7 : EMEnv :=
  { nowStart := 1000
    nowCatch := 2000
    freshClientOrderId := "g7"
    createOrderResult := Except.error throttleMsgC7
    fetchOrderResp := none
    fetchOrdersResp := none }

/-- C7 counterexample: on a throttling exception from `createOrder` the
failure result is returned, yet the event trace contains the venue submission
and no rate-limiter interaction at all — no token acquisition before
`createOrder` and no `recordRateLimitError` before returning — refuting the
claim. -/
theorem C7_counterexample :
    isRateLimitMessage throttleMsgC7 = true ∧
    (ExchangeManager.executeTrade stC7 envC7 orderC7).1 =
      Except.ok (ExchangeManager.failureResult orderC7 throttleMsgC7 2000) ∧
    ((ExchangeManager.executeTrade stC7 envC7 orderC7).2.2).countP
      isRateLimiterEvent = 0 ∧
    ((ExchangeManager.executeTrade stC7 envC7 orderC7).2.2).countP
      isCreateOrderEvent = 1 := by
  refine ⟨by decide, ?_, ?_, ?_⟩ <;> rfl

/-- C7 amended: `executeTrade` performs no rate-limiter interaction at all —
no token is acquired before the outbound `createOrder` call and
`recordRateLimitError` is never invoked; on an exception that does not match
the timeout pattern (all throttling errors included) it calls
`handleExchangeError` and then returns the failure result. -/
theorem C7_no_rate_limiter_on_order_path (st : EMState) (env : EMEnv)
    (order : TradeOrder) (msg : String) :
    ((ExchangeManager.executeTrade st env order).2.2).countP
      isRateLimiterEvent = 0 ∧
    (lookupKey st.exchanges order.exchange = some true →
     lookupKey (ExchangeManager.cleanupRecentOrders env.nowStart st).recentOrders
        (jsOrStr order.clientOrderIdParam env.freshClientOrderId) = none →
     env.createOrderResult = Except.error msg →
     isTimeoutMessage msg = false →
      (ExchangeManager.executeTrade st env order).1 =
        Except.ok (ExchangeManager.failureResult order msg env.nowCatch) ∧
      (ExchangeManager.executeTrade st env order).2.2 =
        [EMEvent.createOrder order.exchange order.symbol order.side order.amount
          (jsOrStr order.clientOrderIdParam env.freshClientOrderId),
         EMEvent.handleExchangeError order.exchange ("executeTrade")]) := by
  refine ⟨executeTrade_no_rate_limiter st env order, ?_⟩
  intro hreg hnoentry herr hnotimeout
  have hsc := shortCircuitCheck_none_of_no_entry
    (ExchangeManager.cleanupRecentOrders env.nowStart st) env order
    (jsOrStr order.clientOrderIdParam env.freshClientOrderId) hnoentry
  constructor <;>
    simp [ExchangeManager.executeTrade, hreg, hsc, ExchangeManager.submitPath,
      herr, hnotimeout]

/-- Witness for C7 amended at the throttling counterexample input. -/
theorem C7_no_rate_limiter_on_order_path_witness :
    (ExchangeManager.executeTrade stC7 envC7 orderC7).2.2 =
      [EMEvent.createOrder ("binance") ("BTC/USDT") Side.buy 10 ("cid7"),
       EMEvent.handleExchangeError ("binance") ("executeTrade")] := by
  have h := (C7_no_rate_limiter_on_order_path stC7 envC7 orderC7 throttleMsgC7).2
    rfl rfl rfl (by decide)
  exact h.2

/-- C10: `executeTrade` throws exactly when the target exchange is
unregistered or lacks the `createOrder` capability; and when the venue-side
`createOrder` call itself fails (a non-timeout exception, or a timeout whose
recovery scan finds nothing), the failure is returned as a `TradeResult` with
`success = false`, `filled = 0`, `cost = 0`, `fee = 0`, an empty `orderId`,
and the error message — not propagated as an exception. -/
theorem C10_venue_failures_returned_not_thrown (st : EMState) (env : EMEnv)
    (order : TradeOrder) (msg : String) :
    ((∃ e, (ExchangeManager.executeTrade st env order).1 = Except.error e) ↔
      (lookupKey st.exchanges order.exchange = none ∨
       lookupKey st.exchanges order.exchange = some false)) ∧
    (lookupKey st.exchanges order.exchange = some true →
     lookupKey (ExchangeManager.cleanupRecentOrders env.nowStart st).recentOrders
        (jsOrStr order.clientOrderIdParam env.freshClientOrderId) = none →
     env.createOrderResult = Except.error msg →
     (isTimeoutMessage msg = false ∨
       env.fetchOrdersResp.bind (fun orders => orders.find?
         (fun v => ExchangeManager.matchesRecentOrder env.nowCatch order.side
           order.amount v)) = none) →
      (ExchangeManager.executeTrade st env order).1 =
        Except.ok (ExchangeManager.failureResult order msg env.nowCatch) ∧
      (ExchangeManager.failureResult order msg env.nowCatch).success = false ∧
      (ExchangeManager.failureResult order msg env.nowCatch).filled = 0 ∧
      (ExchangeManager.failureResult order msg env.nowCatch).cost = 0 ∧
      (ExchangeManager.failureResult order msg env.nowCatch).fee = 0 ∧
      (ExchangeManager.failureResult order msg env.nowCatch).orderId = "" ∧
      (ExchangeManager.failureResult order msg env.nowCatch).error = some msg) := by
  constructor
  · cases hx : lookupKey st.exchanges order.exchange with
    | none => simp [ExchangeManager.executeTrade, hx]
    | some cap =>
      by_cases hc : cap = false
      · subst hc
        simp [ExchangeManager.executeTrade, hx]
      · rcases hsc : ExchangeManager.shortCircuitCheck
            (ExchangeManager.cleanupRecentOrders env.nowStart st) env order
            (jsOrStr order.clientOrderIdParam env.freshClientOrderId) with ⟨sc, evs0⟩
        cases sc with
        | some r => simp [ExchangeManager.executeTrade, hx, hc, hsc]
        | none => simp [ExchangeManager.executeTrade, hx, hc, hsc]
  · intro hreg hnoentry herr hfail
    have hsc := shortCircuitCheck_none_of_no_entry
      (ExchangeManager.cleanupRecentOrders env.nowStart st) env order
      (jsOrStr order.clientOrderIdParam env.freshClientOrderId) hnoentry
    by_cases ht : isTimeoutMessage msg = true
    · have hscan : env.fetchOrdersResp.bind (fun orders => orders.find?
          (fun v => ExchangeManager.matchesRecentOrder env.nowCatch order.side
            order.amount v)) = none := by
        rcases hfail with hft | hscan
        · rw [ht] at hft
          cases hft
        · exact hscan
      have hfr := findRecentOrderByParams_spec
        (ExchangeManager.cleanupRecentOrders env.nowStart st) env order.exchange
        order.symbol order.side order.amount true hreg
      refine ⟨?_, rfl, rfl, rfl, rfl, rfl, rfl⟩
      simp [ExchangeManager.executeTrade, hreg, hsc, ExchangeManager.submitPath,
        herr, ht, hfr, hscan]
    · refine ⟨?_, rfl, rfl, rfl, rfl, rfl, rfl⟩
      simp [ExchangeManager.executeTrade, hreg, hsc, ExchangeManager.submitPath,
        herr, ht]

/-- Witness for C10: a non-timeout venue exception at a concrete input is
returned as the zeroed failure result, and no exception is thrown for the
registered, capable venue. -/
theorem C10_venue_failures_returned_not_thrown_witness :
    ¬ (∃ e, (ExchangeManager.executeTrade stC7 envC7 orderC7).1 = Except.error e) ∧
    (ExchangeManager.executeTrade stC7 envC7 orderC7).1 =
      Except.ok (ExchangeManager.failureResult orderC7 throttleMsgC7 2000) ∧
    (ExchangeManager.failureResult orderC7 throttleMsgC7 2000).filled = 0 := by
  have h := C10_venue_failures_returned_not_thrown stC7 envC7 orderC7 throttleMsgC7
  have h2 := h.2 rfl rfl rfl (Or.inl (by decide))
  refine ⟨?_, h2.1, h2.2.2.1⟩
  intro he
  rcases he with ⟨e, he⟩
  rw [h2.1] at he
  cases he

/-- Witness for C9 on the empty ledger. -/
theorem C9_missing_key_mutations_are_noops_witness :
    TradeStatePersistence.recordBuyExecuted DEFAULT_STATE_FILE 5 emptyPersistedState
        ("missing-key") sampleBuyResult =
      (emptyPersistedState,
       [PersistEvent.logWarn ("Attempted to update non-existent trade")]) ∧
    TradeStatePersistence.acknowledgeOrphanedTrade DEFAULT_STATE_FILE 5
        emptyPersistedState ("missing-key") =
      (emptyPersistedState,
       [PersistEvent.logWarn ("Attempted to acknowledge non-existent trade")]) := by
  have h := C9_missing_key_mutations_are_noops DEFAULT_STATE_FILE 5
    emptyPersistedState ("missing-key") sampleBuyResult true none rfl
  exact ⟨h.1, h.2.2⟩

end CryptoArb
